import Mathlib

/-!
Verification of the token-provider and API-client logic of the
powerbi-service-mcp-server repository, as a shallow embedding.

Time is modelled as milliseconds since the epoch (`Int`), matching the
JavaScript `Date.now()` representation.  The MSAL identity-provider
library is external: its behaviour on one acquisition call is abstracted
as a `ProviderBehavior` value (either an `AuthenticationResult | null`
or a thrown exception).  Each embedded operation additionally returns
the number of identity-provider / network calls it performed, so that
"no network call" claims can be stated.
-/

/-- Embeds the `TokenCache` interface of `src/auth/msal.ts`:
an access token string together with its absolute expiry (ms). -/
structure TokenCache where
  accessToken : String
  expiresOn : Int
  deriving DecidableEq, Repr

/-- The module-level mutable state of `src/auth/msal.ts`:
`let tokenCache: TokenCache | null = null`. -/
structure AuthState where
  tokenCache : Option TokenCache
  deriving DecidableEq, Repr

/-- Embeds the `env` object of `src/utils/env.ts`: the configuration
surface read by the token provider. -/
structure Env where
  CLIENT_ID : String
  CLIENT_SECRET : String
  TENANT_ID : String
  API_KEY : String
  PORT : String
  PBI_SCOPE : String
  PBI_AUTH_MODE : String
  CORS_ORIGINS : String
  PBI_TOOLS_PATH : String
  deriving DecidableEq, Repr

/-- JavaScript `a || b` on strings: `b` when `a` is `undefined` (here
`none`) or the empty string (falsy), otherwise `a`. -/
def jsOrDefault (a : Option String) (b : String) : String :=
  match a with
  | none => b
  | some s => if s = "" then b else s

/-- Embeds the construction of the `env` object in `src/utils/env.ts`
from the process environment (`processEnv key` is
`process.env.KEY`, `none` when the variable is unset). -/
def mkEnv (processEnv : String → Option String) : Env :=
  { CLIENT_ID := jsOrDefault (processEnv "CLIENT_ID") ""
    CLIENT_SECRET := jsOrDefault (processEnv "CLIENT_SECRET") ""
    TENANT_ID := jsOrDefault (processEnv "TENANT_ID") ""
    API_KEY := jsOrDefault (processEnv "API_KEY") ""
    PORT := jsOrDefault (processEnv "PORT") "3000"
    PBI_SCOPE := "https://analysis.windows.net/powerbi/api/.default"
    PBI_AUTH_MODE := jsOrDefault (processEnv "PBI_AUTH_MODE") "sp"
    CORS_ORIGINS := jsOrDefault (processEnv "CORS_ORIGINS") "*"
    PBI_TOOLS_PATH := jsOrDefault (processEnv "PBI_TOOLS_PATH") "pbi-tools" }

/-- Embeds msal-node's `AuthenticationResult` as used by `msal.ts`:
only the `accessToken` and the (nullable) `expiresOn` fields are read. -/
structure AuthenticationResult where
  accessToken : String
  expiresOn : Option Int
  deriving DecidableEq, Repr

/-- One call to the external identity provider either resolves with an
`AuthenticationResult | null`, or rejects (is thrown). -/
inductive ProviderBehavior where
  | resolves (result : Option AuthenticationResult)
  | throws
  deriving DecidableEq, Repr

/-- The distinct `AuthenticationError` values thrown by `msal.ts`,
identified by their message. -/
inductive AuthError where
  | invalidAuthMode (mode : String)
  | failedToAcquire
  | missingClientSecret
  | servicePrincipalFailed
  | deviceCodeFailed
  deriving DecidableEq, Repr

/-- Embeds `acquireTokenServicePrincipal` of `src/auth/msal.ts`.
Returns the outcome together with the number of identity-provider
calls made (constructing the confidential client and calling
`acquireTokenByClientCredential` counts as the one network call).
The JS guard `if (!env.CLIENT_SECRET)` fires exactly when the secret
is the empty string (the falsy default). -/
def acquireTokenServicePrincipal (env : Env) (provider : ProviderBehavior) :
    Except AuthError (Option AuthenticationResult) × Nat :=
  if env.CLIENT_SECRET = "" then
    (Except.error AuthError.missingClientSecret, 0)
  else
    match provider with
    | ProviderBehavior.resolves r => (Except.ok r, 1)
    | ProviderBehavior.throws => (Except.error AuthError.servicePrincipalFailed, 1)

/-- Embeds `acquireTokenDeviceCode` of `src/auth/msal.ts` (the device
code callback only logs and prints; it does not affect the result). -/
def acquireTokenDeviceCode (provider : ProviderBehavior) :
    Except AuthError (Option AuthenticationResult) × Nat :=
  match provider with
  | ProviderBehavior.resolves r => (Except.ok r, 1)
  | ProviderBehavior.throws => (Except.error AuthError.deviceCodeFailed, 1)

/-- The strategy dispatch of `getAccessToken`: `if/else if/else` on
`env.PBI_AUTH_MODE`; an unrecognized mode throws
`Invalid auth mode: ...` with no provider call. -/
def dispatchAcquire (env : Env) (provider : ProviderBehavior) :
    Except AuthError (Option AuthenticationResult) × Nat :=
  if env.PBI_AUTH_MODE = "sp" then
    acquireTokenServicePrincipal env provider
  else if env.PBI_AUTH_MODE = "device" then
    acquireTokenDeviceCode provider
  else
    (Except.error (AuthError.invalidAuthMode env.PBI_AUTH_MODE), 0)

/-- The expiry stored in the cache write of `getAccessToken`:
`result.expiresOn || new Date(Date.now() + 3600 * 1000)` (a null
`expiresOn` is falsy, so it defaults to one hour from now). -/
def resultExpiry (now : Int) (ar : AuthenticationResult) : Int :=
  match ar.expiresOn with
  | some e => e
  | none => now + 3600 * 1000

/-- Embeds the acquisition half of `getAccessToken` (everything after
the cache check): strategy dispatch on `env.PBI_AUTH_MODE`, the
`!result?.accessToken` guard (true when `result` is null or the token
is the empty string, both falsy), and the cache write. -/
def acquireAndCache (env : Env) (now : Int) (provider : ProviderBehavior)
    (st : AuthState) : Except AuthError String × AuthState × Nat :=
  match dispatchAcquire env provider with
  | (Except.error e, calls) => (Except.error e, st, calls)
  | (Except.ok none, calls) => (Except.error AuthError.failedToAcquire, st, calls)
  | (Except.ok (some ar), calls) =>
    if ar.accessToken = "" then
      (Except.error AuthError.failedToAcquire, st, calls)
    else
      (Except.ok ar.accessToken,
        { tokenCache := some
            { accessToken := ar.accessToken
              expiresOn := resultExpiry now ar } },
        calls)

/-- Embeds `getAccessToken` of `src/auth/msal.ts`.  The cache is used
when `tokenCache && tokenCache.expiresOn > new Date(Date.now() + 5 * 60 * 1000)`;
otherwise a fresh acquisition runs.  Returns the token or the thrown
`AuthenticationError`, the updated module state, and the number of
identity-provider calls performed. -/
def getAccessToken (env : Env) (now : Int) (provider : ProviderBehavior)
    (st : AuthState) : Except AuthError String × AuthState × Nat :=
  match st.tokenCache with
  | some tc =>
    if now + 5 * 60 * 1000 < tc.expiresOn then
      (Except.ok tc.accessToken, st, 0)
    else
      acquireAndCache env now provider st
  | none => acquireAndCache env now provider st

/-- Embeds `clearTokenCache` of `src/auth/msal.ts`:
`tokenCache = null` (plus a debug log).  It is a straight-line
assignment with no throw path. -/
def clearTokenCache (_st : AuthState) : AuthState :=
  { tokenCache := none }

/-- A well-formed module state: any cached credential was written by a
successful acquisition, which never stores an empty token. -/
def AuthStateWF (st : AuthState) : Prop :=
  ∀ tc, st.tokenCache = some tc → tc.accessToken ≠ ""

/-- Boolean version of `AuthStateWF`, for concrete evaluations. -/
def authStateWFb (st : AuthState) : Bool :=
  match st.tokenCache with
  | none => true
  | some tc => decide (tc.accessToken ≠ "")

instance (st : AuthState) : Decidable (AuthStateWF st) :=
  decidable_of_iff (authStateWFb st = true)
    (by obtain ⟨c⟩ := st; cases c <;> simp [AuthStateWF, authStateWFb])

/-- The cache-miss side of the cache check of `getAccessToken`:
the slot is empty, or the cached expiry is not more than five minutes
past `now` (the negation of the JS guard). -/
def cacheMiss (st : AuthState) (now : Int) : Prop :=
  ∀ tc, st.tokenCache = some tc → tc.expiresOn ≤ now + 5 * 60 * 1000

/-- Boolean version of `cacheMiss`, for concrete evaluations. -/
def cacheMissb (st : AuthState) (now : Int) : Bool :=
  match st.tokenCache with
  | none => true
  | some tc => decide (tc.expiresOn ≤ now + 5 * 60 * 1000)

instance (st : AuthState) (now : Int) : Decidable (cacheMiss st now) :=
  decidable_of_iff (cacheMissb st now = true)
    (by obtain ⟨c⟩ := st; cases c <;> simp [cacheMiss, cacheMissb])

/-- The environment used by the end-to-end scenario: strategy
`sp` with the given application id, tenant and secret. -/
def spEnv (cid tid secret : String) : Env :=
  { CLIENT_ID := cid
    CLIENT_SECRET := secret
    TENANT_ID := tid
    API_KEY := ""
    PORT := "3000"
    PBI_SCOPE := "https://analysis.windows.net/powerbi/api/.default"
    PBI_AUTH_MODE := "sp"
    CORS_ORIGINS := "*"
    PBI_TOOLS_PATH := "pbi-tools" }

/-- A process environment that configures the service-principal values
but leaves `PBI_AUTH_MODE` unset. -/
def missingModeProcessEnv : String → Option String :=
  fun k =>
    if k = "CLIENT_ID" then some "app1"
    else if k = "CLIENT_SECRET" then some "s3cr3t"
    else if k = "TENANT_ID" then some "tenant1"
    else none

/-!
Embedding of the request path of `PowerBIClient` in
`src/services/powerbiClient.ts`.  The underlying axios transport is
abstracted as a function from the attempt index to a `TransportResult`
(the raw HTTP response, or a failure with no response at all).  Axios
resolves a 2xx response and rejects any other status with an error
carrying the response; the response interceptor retries 429 and 5xx
responses up to `MAX_RETRIES` times; `request` translates a rejected
response into a `PowerBIError`.
-/

/-- Abstraction of a response body: `errorMessage` is
`data?.error?.message` (`none` when the path is absent), `raw` stands
for the whole `response.data` carried as the error's details. -/
structure ResponseData where
  errorMessage : Option String
  raw : String
  deriving DecidableEq, Repr

/-- One attempt on the wire: an HTTP response with a status code and a
body, or a transport-level failure with no response. -/
inductive TransportResult where
  | response (status : Nat) (data : ResponseData)
  | netFail (message : String)
  deriving DecidableEq, Repr

/-- Outcome of `this.client.request(...)` after the interceptor chain:
a resolved 2xx body, a rejected axios error that carries a response, or
a rejected error with no response. -/
inductive AxiosOutcome where
  | success (data : ResponseData)
  | httpError (status : Nat) (data : ResponseData)
  | netError (message : String)
  deriving DecidableEq, Repr

/-- The `MAX_RETRIES` constant of `src/services/powerbiClient.ts`. -/
def MAX_RETRIES : Nat := 3

/-- Message of the axios error for a non-2xx response (axios's own
fixed format), used when the body has no `error.message`. -/
def axiosStatusMessage (status : Nat) : String :=
  "Request failed with status code " ++ toString status

/-- Embeds the response interceptor loop of `PowerBIClient`:
a 2xx response resolves; a 429 or 5xx response is retried while the
`_retry` counter is below `MAX_RETRIES`; any other rejection is
re-thrown.  `remaining` is `MAX_RETRIES - retryCount`, so the
structural recursion mirrors the `retryCount < MAX_RETRIES` guard. -/
def interceptedRequest (transport : Nat → TransportResult) :
    Nat → Nat → AxiosOutcome
  | attempt, remaining =>
    match transport attempt, remaining with
    | TransportResult.response status data, r =>
      if 200 ≤ status ∧ status < 300 then
        AxiosOutcome.success data
      else if status = 429 ∨ 500 ≤ status then
        match r with
        | r' + 1 => interceptedRequest transport (attempt + 1) r'
        | 0 => AxiosOutcome.httpError status data
      else
        AxiosOutcome.httpError status data
    | TransportResult.netFail msg, _ => AxiosOutcome.netError msg

/-- The errors `PowerBIClient.request` can throw: the typed
`PowerBIError` built from a rejected response, or the re-thrown
underlying error when no response is available. -/
inductive ClientError where
  | powerBIError (message : String) (statusCode : Nat) (details : ResponseData)
  | rethrown (message : String)
  deriving DecidableEq, Repr

namespace PowerBIClient

/-- Embeds `PowerBIClient.request`: runs the intercepted axios call
(the fresh request starts with no `_retry` marker, i.e. all
`MAX_RETRIES` retries available) and translates an axios error that
has a response into `PowerBIError(data?.error?.message || error.message,
status, data)`; other errors are re-thrown unchanged. -/
def request (transport : Nat → TransportResult) :
    Except ClientError ResponseData :=
  match interceptedRequest transport 0 MAX_RETRIES with
  | AxiosOutcome.success data => Except.ok data
  | AxiosOutcome.httpError status data =>
    Except.error (ClientError.powerBIError
      (jsOrDefault data.errorMessage (axiosStatusMessage status)) status data)
  | AxiosOutcome.netError msg => Except.error (ClientError.rethrown msg)

end PowerBIClient

example : getAccessToken
    (mkEnv fun _ => none) 0 (ProviderBehavior.resolves none) ⟨none⟩ =
    (Except.error AuthError.missingClientSecret, ⟨none⟩, 0) := rfl

example : getAccessToken
    { CLIENT_ID := "app1", CLIENT_SECRET := "s3cr3t", TENANT_ID := "tenant1",
      API_KEY := "", PORT := "3000", PBI_SCOPE := "scope",
      PBI_AUTH_MODE := "sp", CORS_ORIGINS := "*", PBI_TOOLS_PATH := "pbi-tools" }
    0 (ProviderBehavior.resolves (some ⟨"TOK123", some 3600000⟩)) ⟨none⟩ =
    (Except.ok "TOK123", ⟨some ⟨"TOK123", 3600000⟩⟩, 1) := rfl

example : PowerBIClient.request
    (fun _ => TransportResult.response 404 ⟨some "NotFound", "body"⟩) =
    Except.error (ClientError.powerBIError "NotFound" 404 ⟨some "NotFound", "body"⟩) := rfl

example : PowerBIClient.request
    (fun _ => TransportResult.response 503 ⟨none, "busy"⟩) =
    Except.error (ClientError.powerBIError
      (axiosStatusMessage 503) 503 ⟨none, "busy"⟩) := rfl

example : PowerBIClient.request
    (fun n => if n < 2 then TransportResult.response 429 ⟨none, "slow"⟩
              else TransportResult.response 200 ⟨none, "ok"⟩) =
    Except.ok ⟨none, "ok"⟩ := rfl

/-! Helper lemmas about the token provider. -/

/-- A usable cached credential short-circuits `getAccessToken`. -/
theorem getAccessToken_hit_aux (env : Env) (now : Int) (provider : ProviderBehavior)
    (tc : TokenCache) (h : now + 5 * 60 * 1000 < tc.expiresOn) :
    getAccessToken env now provider ⟨some tc⟩ = (Except.ok tc.accessToken, ⟨some tc⟩, 0) := by
  show (if now + 5 * 60 * 1000 < tc.expiresOn then
          (Except.ok tc.accessToken, (⟨some tc⟩ : AuthState), 0)
        else acquireAndCache env now provider ⟨some tc⟩) =
      (Except.ok tc.accessToken, (⟨some tc⟩ : AuthState), 0)
  rw [if_pos h]

/-- On a cache miss `getAccessToken` runs the acquisition path. -/
theorem getAccessToken_miss_aux (env : Env) (now : Int) (provider : ProviderBehavior)
    (st : AuthState) (h : cacheMiss st now) :
    getAccessToken env now provider st = acquireAndCache env now provider st := by
  obtain ⟨c⟩ := st
  cases c with
  | none => rfl
  | some tc =>
    have hle : tc.expiresOn ≤ now + 5 * 60 * 1000 := h tc rfl
    show (if now + 5 * 60 * 1000 < tc.expiresOn then
            (Except.ok tc.accessToken, (⟨some tc⟩ : AuthState), 0)
          else acquireAndCache env now provider ⟨some tc⟩) =
        acquireAndCache env now provider ⟨some tc⟩
    rw [if_neg (not_lt.mpr hle)]

/-- With mode `sp`, a configured secret and a provider that resolves
with a non-empty token, the acquisition path stores and returns it. -/
theorem acquireAndCache_sp_resolves (env : Env) (now : Int) (ar : AuthenticationResult)
    (st : AuthState) (hmode : env.PBI_AUTH_MODE = "sp") (hsec : env.CLIENT_SECRET ≠ "")
    (htok : ar.accessToken ≠ "") :
    acquireAndCache env now (ProviderBehavior.resolves (some ar)) st =
      (Except.ok ar.accessToken, ⟨some ⟨ar.accessToken, resultExpiry now ar⟩⟩, 1) := by
  unfold acquireAndCache dispatchAcquire acquireTokenServicePrincipal
  simp [hmode, hsec, htok]

/-- With mode `device` and a provider that resolves with a non-empty
token, the acquisition path stores and returns it. -/
theorem acquireAndCache_device_resolves (env : Env) (now : Int) (ar : AuthenticationResult)
    (st : AuthState) (hmode : env.PBI_AUTH_MODE = "device") (htok : ar.accessToken ≠ "") :
    acquireAndCache env now (ProviderBehavior.resolves (some ar)) st =
      (Except.ok ar.accessToken, ⟨some ⟨ar.accessToken, resultExpiry now ar⟩⟩, 1) := by
  unfold acquireAndCache dispatchAcquire acquireTokenDeviceCode
  rw [hmode]
  simp [htok]

/-- A successful acquisition path yields a non-empty token and a cache
slot holding exactly that token. -/
theorem acquireAndCache_ok_shape (env : Env) (now : Int) (provider : ProviderBehavior)
    (st : AuthState) (t : String) (st' : AuthState) (n : Nat)
    (h : acquireAndCache env now provider st = (Except.ok t, st', n)) :
    t ≠ "" ∧ ∃ e, st' = ⟨some ⟨t, e⟩⟩ := by
  unfold acquireAndCache at h
  split at h
  · simp at h
  · simp at h
  · rename_i ar calls heq
    split at h
    · simp at h
    · rename_i ht
      simp only [Prod.mk.injEq, Except.ok.injEq] at h
      obtain ⟨hta, hst, -⟩ := h
      subst hta
      exact ⟨ht, resultExpiry now ar, hst.symm⟩

/-- A failed acquisition path leaves the cache slot untouched. -/
theorem acquireAndCache_error_state (env : Env) (now : Int) (provider : ProviderBehavior)
    (st : AuthState) (e : AuthError) (st' : AuthState) (n : Nat)
    (h : acquireAndCache env now provider st = (Except.error e, st', n)) :
    st' = st := by
  unfold acquireAndCache at h
  split at h
  · simp only [Prod.mk.injEq] at h
    exact h.2.1.symm
  · simp only [Prod.mk.injEq] at h
    exact h.2.1.symm
  · split at h
    · simp only [Prod.mk.injEq] at h
      exact h.2.1.symm
    · simp at h

/-! Claim theorems. -/

/-- C1: for every cached credential whose expiry is more than five
minutes after the current time, `getAccessToken` returns exactly the
cached token string, leaves the cache unchanged, and performs zero
identity-provider (network) calls. -/
theorem getAccessToken_cache_hit (env : Env) (now : Int) (provider : ProviderBehavior)
    (tc : TokenCache) (h : now + 5 * 60 * 1000 < tc.expiresOn) :
    getAccessToken env now provider ⟨some tc⟩ = (Except.ok tc.accessToken, ⟨some tc⟩, 0) :=
  getAccessToken_hit_aux env now provider tc h

/-- Witness for C1: a token cached with expiry 300001 ms is returned
as-is at time 0 with no provider call, even with a provider that would
throw. -/
theorem getAccessToken_cache_hit_witness :
    getAccessToken (spEnv "app1" "tenant1" "s3cr3t") 0 ProviderBehavior.throws
        ⟨some ⟨"tok", 300001⟩⟩ =
      (Except.ok "tok", ⟨some ⟨"tok", 300001⟩⟩, 0) :=
  getAccessToken_cache_hit (spEnv "app1" "tenant1" "s3cr3t") 0 ProviderBehavior.throws
    ⟨"tok", 300001⟩ (by decide)

/-- C2: from any well-formed state, `getAccessToken` either returns a
non-empty token (and the state stays well-formed), or raises an
`AuthenticationError` and leaves the cached credential slot exactly as
it was — it never returns an empty token and never installs a partial
credential on failure. -/
theorem getAccessToken_valid_or_error (env : Env) (now : Int) (provider : ProviderBehavior)
    (st : AuthState) (hwf : AuthStateWF st) :
    (∀ t st' n, getAccessToken env now provider st = (Except.ok t, st', n) →
      t ≠ "" ∧ AuthStateWF st') ∧
    (∀ e st' n, getAccessToken env now provider st = (Except.error e, st', n) → st' = st) := by
  obtain ⟨c⟩ := st
  cases c with
  | none =>
    constructor
    · intro t st' n h
      obtain ⟨ht, e, hst⟩ := acquireAndCache_ok_shape env now provider ⟨none⟩ t st' n h
      subst hst
      exact ⟨ht, fun tc2 hc => by cases hc; exact ht⟩
    · intro e st' n h
      exact acquireAndCache_error_state env now provider ⟨none⟩ e st' n h
  | some tc =>
    by_cases hv : now + 5 * 60 * 1000 < tc.expiresOn
    · rw [getAccessToken_hit_aux env now provider tc hv]
      constructor
      · intro t st' n h
        simp only [Prod.mk.injEq, Except.ok.injEq] at h
        obtain ⟨h1, h2, -⟩ := h
        subst h1
        subst h2
        exact ⟨hwf tc rfl, hwf⟩
      · intro e st' n h
        simp at h
    · have hmiss : cacheMiss ⟨some tc⟩ now := fun tc2 hc => by cases hc; exact not_lt.mp hv
      rw [getAccessToken_miss_aux env now provider ⟨some tc⟩ hmiss]
      constructor
      · intro t st' n h
        obtain ⟨ht, e, hst⟩ := acquireAndCache_ok_shape env now provider ⟨some tc⟩ t st' n h
        subst hst
        exact ⟨ht, fun tc2 hc => by cases hc; exact ht⟩
      · intro e st' n h
        exact acquireAndCache_error_state env now provider ⟨some tc⟩ e st' n h

/-- Witness for C2: from the empty (well-formed) state, a successful
service-principal acquisition returns the non-empty token `TOK123` and
the resulting state is again well-formed. -/
theorem getAccessToken_valid_or_error_witness :
    "TOK123" ≠ "" ∧ AuthStateWF ⟨some ⟨"TOK123", 3600000⟩⟩ :=
  (getAccessToken_valid_or_error (spEnv "app1" "tenant1" "s3cr3t") 0
      (ProviderBehavior.resolves (some ⟨"TOK123", some 3600000⟩)) ⟨none⟩
      (by decide)).1 "TOK123" ⟨some ⟨"TOK123", 3600000⟩⟩ 1 rfl

/-- C3: a successful acquisition overwrites the cache regardless of its
prior contents, and in the end-to-end scenario (strategy `sp`, app
`app1`, tenant `tenant1`, secret `s3cr3t`, provider returning `TOK123`
valid for 3600 s) two immediate `getAccessToken` calls after a cache
miss perform one provider call on the first and zero on the second,
both returning `TOK123`. -/
theorem getAccessToken_refresh_replaces_cache :
    (∀ (env : Env) (now : Int) (ar : AuthenticationResult) (st : AuthState),
      (env.PBI_AUTH_MODE = "sp" ∧ env.CLIENT_SECRET ≠ "") ∨ env.PBI_AUTH_MODE = "device" →
      ar.accessToken ≠ "" → cacheMiss st now →
      getAccessToken env now (ProviderBehavior.resolves (some ar)) st =
        (Except.ok ar.accessToken, ⟨some ⟨ar.accessToken, resultExpiry now ar⟩⟩, 1)) ∧
    (∀ (now : Int) (st : AuthState), cacheMiss st now →
      getAccessToken (spEnv "app1" "tenant1" "s3cr3t") now
          (ProviderBehavior.resolves (some ⟨"TOK123", some (now + 3600 * 1000)⟩)) st =
        (Except.ok "TOK123", ⟨some ⟨"TOK123", now + 3600 * 1000⟩⟩, 1) ∧
      getAccessToken (spEnv "app1" "tenant1" "s3cr3t") now
          (ProviderBehavior.resolves (some ⟨"TOK123", some (now + 3600 * 1000)⟩))
          ⟨some ⟨"TOK123", now + 3600 * 1000⟩⟩ =
        (Except.ok "TOK123", ⟨some ⟨"TOK123", now + 3600 * 1000⟩⟩, 0)) := by
  constructor
  · intro env now ar st hmode htok hmiss
    rw [getAccessToken_miss_aux env now _ st hmiss]
    rcases hmode with ⟨hsp, hsec⟩ | hdev
    · exact acquireAndCache_sp_resolves env now ar st hsp hsec htok
    · exact acquireAndCache_device_resolves env now ar st hdev htok
  · intro now st hmiss
    constructor
    · rw [getAccessToken_miss_aux _ now _ st hmiss]
      exact acquireAndCache_sp_resolves _ now ⟨"TOK123", some (now + 3600 * 1000)⟩ st
        rfl (by decide) (by simp)
    · exact getAccessToken_hit_aux _ now _ ⟨"TOK123", now + 3600 * 1000⟩
        (by show now + 5 * 60 * 1000 < now + 3600 * 1000; omega)

/-- Witness for C3: the end-to-end scenario run from the empty cache at
time 0. -/
theorem getAccessToken_refresh_replaces_cache_witness :
    getAccessToken (spEnv "app1" "tenant1" "s3cr3t") 0
        (ProviderBehavior.resolves (some ⟨"TOK123", some (0 + 3600 * 1000)⟩)) ⟨none⟩ =
      (Except.ok "TOK123", ⟨some ⟨"TOK123", 0 + 3600 * 1000⟩⟩, 1) ∧
    getAccessToken (spEnv "app1" "tenant1" "s3cr3t") 0
        (ProviderBehavior.resolves (some ⟨"TOK123", some (0 + 3600 * 1000)⟩))
        ⟨some ⟨"TOK123", 0 + 3600 * 1000⟩⟩ =
      (Except.ok "TOK123", ⟨some ⟨"TOK123", 0 + 3600 * 1000⟩⟩, 0) :=
  getAccessToken_refresh_replaces_cache.2 0 ⟨none⟩ (by decide)

/-- C4: with strategy `sp` selected and no client secret configured,
`getAccessToken` fails with the missing-secret `AuthenticationError`,
leaves the state unchanged, and performs zero identity-provider calls
(the confidential client is never constructed). -/
theorem getAccessToken_missing_secret_fails_fast (env : Env) (now : Int)
    (provider : ProviderBehavior) (st : AuthState)
    (hmode : env.PBI_AUTH_MODE = "sp") (hsec : env.CLIENT_SECRET = "")
    (hmiss : cacheMiss st now) :
    getAccessToken env now provider st =
      (Except.error AuthError.missingClientSecret, st, 0) := by
  rw [getAccessToken_miss_aux env now provider st hmiss]
  unfold acquireAndCache dispatchAcquire acquireTokenServicePrincipal
  simp [hmode, hsec]

/-- Witness for C4: empty secret, empty cache, time 0. -/
theorem getAccessToken_missing_secret_fails_fast_witness :
    getAccessToken (spEnv "app1" "tenant1" "") 0 ProviderBehavior.throws ⟨none⟩ =
      (Except.error AuthError.missingClientSecret, ⟨none⟩, 0) :=
  getAccessToken_missing_secret_fails_fast (spEnv "app1" "tenant1" "") 0
    ProviderBehavior.throws ⟨none⟩ rfl rfl (by decide)

/-- C5: with the strategy selector set to anything other than `sp` or
`device`, `getAccessToken` fails with the invalid-auth-mode
`AuthenticationError`, leaves the state unchanged, and performs zero
identity-provider calls. -/
theorem getAccessToken_unknown_mode_fails (env : Env) (now : Int)
    (provider : ProviderBehavior) (st : AuthState)
    (h1 : env.PBI_AUTH_MODE ≠ "sp") (h2 : env.PBI_AUTH_MODE ≠ "device")
    (hmiss : cacheMiss st now) :
    getAccessToken env now provider st =
      (Except.error (AuthError.invalidAuthMode env.PBI_AUTH_MODE), st, 0) := by
  rw [getAccessToken_miss_aux env now provider st hmiss]
  unfold acquireAndCache dispatchAcquire
  simp [h1, h2]

/-- Witness for C5: selector `oauth`, empty cache, time 0. -/
theorem getAccessToken_unknown_mode_fails_witness :
    getAccessToken { spEnv "app1" "tenant1" "s3cr3t" with PBI_AUTH_MODE := "oauth" } 0
        ProviderBehavior.throws ⟨none⟩ =
      (Except.error (AuthError.invalidAuthMode "oauth"), ⟨none⟩, 0) :=
  getAccessToken_unknown_mode_fails
    { spEnv "app1" "tenant1" "s3cr3t" with PBI_AUTH_MODE := "oauth" } 0
    ProviderBehavior.throws ⟨none⟩ (by decide) (by decide) (by decide)

/-- C6: a cached credential whose expiry is not more than five minutes
past the current time (in particular one expiring in exactly five
minutes minus one second) is treated as expired: `getAccessToken` takes
the acquisition path, and with strategy `sp` and a configured secret
one identity-provider call is made. -/
theorem getAccessToken_expiry_boundary_reacquires (env : Env) (now : Int)
    (provider : ProviderBehavior) (tc : TokenCache)
    (h : tc.expiresOn ≤ now + 5 * 60 * 1000) :
    getAccessToken env now provider ⟨some tc⟩ = acquireAndCache env now provider ⟨some tc⟩ ∧
    (env.PBI_AUTH_MODE = "sp" → env.CLIENT_SECRET ≠ "" →
      (getAccessToken env now provider ⟨some tc⟩).2.2 = 1) := by
  have hmiss : cacheMiss ⟨some tc⟩ now := fun tc2 hc => by cases hc; exact h
  refine ⟨getAccessToken_miss_aux env now provider _ hmiss, fun hmode hsec => ?_⟩
  rw [getAccessToken_miss_aux env now provider _ hmiss]
  cases provider with
  | resolves r =>
    cases r with
    | none =>
      unfold acquireAndCache dispatchAcquire acquireTokenServicePrincipal
      simp [hmode, hsec]
    | some ar =>
      by_cases ht : ar.accessToken = ""
      · unfold acquireAndCache dispatchAcquire acquireTokenServicePrincipal
        simp [hmode, hsec, ht]
      · rw [acquireAndCache_sp_resolves env now ar _ hmode hsec ht]
  | throws =>
    unfold acquireAndCache dispatchAcquire acquireTokenServicePrincipal
    simp [hmode, hsec]

/-- Witness for C6: at time 0 a credential expiring at 299000 ms
(five minutes minus one second) is re-acquired with one provider
call. -/
theorem getAccessToken_expiry_boundary_reacquires_witness :
    getAccessToken (spEnv "app1" "tenant1" "s3cr3t") 0 ProviderBehavior.throws
        ⟨some ⟨"old", 299000⟩⟩ =
      acquireAndCache (spEnv "app1" "tenant1" "s3cr3t") 0 ProviderBehavior.throws
        ⟨some ⟨"old", 299000⟩⟩ ∧
    ((spEnv "app1" "tenant1" "s3cr3t").PBI_AUTH_MODE = "sp" →
      (spEnv "app1" "tenant1" "s3cr3t").CLIENT_SECRET ≠ "" →
      (getAccessToken (spEnv "app1" "tenant1" "s3cr3t") 0 ProviderBehavior.throws
        ⟨some ⟨"old", 299000⟩⟩).2.2 = 1) :=
  getAccessToken_expiry_boundary_reacquires (spEnv "app1" "tenant1" "s3cr3t") 0
    ProviderBehavior.throws ⟨"old", 299000⟩ (by decide)

/-- C7: `clearTokenCache` empties the cache slot (and, being a
straight-line assignment, has no error path), and the very next
`getAccessToken` call takes the fresh-acquisition path regardless of
how much validity the previously cached token had left. -/
theorem clearTokenCache_forces_fresh_acquisition (st : AuthState) (env : Env)
    (now : Int) (provider : ProviderBehavior) :
    (clearTokenCache st).tokenCache = none ∧
    getAccessToken env now provider (clearTokenCache st) =
      acquireAndCache env now provider (clearTokenCache st) :=
  ⟨rfl, rfl⟩

/-- C8 counterexample: with `PBI_AUTH_MODE` absent from the process
environment (and the service-principal values configured),
`getAccessToken` raises no configuration error at all: the selector
defaults to `sp`, one identity-provider acquisition call is performed,
and a token is returned. -/
theorem missing_auth_mode_counterexample :
    missingModeProcessEnv "PBI_AUTH_MODE" = none ∧
    (mkEnv missingModeProcessEnv).PBI_AUTH_MODE = "sp" ∧
    getAccessToken (mkEnv missingModeProcessEnv) 0
        (ProviderBehavior.resolves (some ⟨"TOK123", some 3600000⟩)) ⟨none⟩ =
      (Except.ok "TOK123", ⟨some ⟨"TOK123", 3600000⟩⟩, 1) :=
  ⟨rfl, rfl, rfl⟩

/-- C8 (amended): when the strategy selector is missing from the
process environment, `env` substitutes the default `sp`, so
`getAccessToken` does not fail on the selector: on a cache miss it
dispatches to service-principal acquisition exactly as if `sp` had
been configured. -/
theorem missing_auth_mode_defaults_to_sp (processEnv : String → Option String)
    (h : processEnv "PBI_AUTH_MODE" = none) :
    (mkEnv processEnv).PBI_AUTH_MODE = "sp" ∧
    (∀ provider, dispatchAcquire (mkEnv processEnv) provider =
      acquireTokenServicePrincipal (mkEnv processEnv) provider) ∧
    (∀ now provider st, cacheMiss st now →
      getAccessToken (mkEnv processEnv) now provider st =
        acquireAndCache (mkEnv processEnv) now provider st) := by
  have hmode : (mkEnv processEnv).PBI_AUTH_MODE = "sp" := by
    show jsOrDefault (processEnv "PBI_AUTH_MODE") "sp" = "sp"
    rw [h]
    rfl
  refine ⟨hmode, fun provider => ?_, fun now provider st hmiss =>
    getAccessToken_miss_aux (mkEnv processEnv) now provider st hmiss⟩
  unfold dispatchAcquire
  rw [if_pos hmode]

/-- Witness for the amended C8: the concrete process environment with
no `PBI_AUTH_MODE` set. -/
theorem missing_auth_mode_defaults_to_sp_witness :
    (mkEnv missingModeProcessEnv).PBI_AUTH_MODE = "sp" ∧
    (∀ provider, dispatchAcquire (mkEnv missingModeProcessEnv) provider =
      acquireTokenServicePrincipal (mkEnv missingModeProcessEnv) provider) ∧
    (∀ now provider st, cacheMiss st now →
      getAccessToken (mkEnv missingModeProcessEnv) now provider st =
        acquireAndCache (mkEnv missingModeProcessEnv) now provider st) :=
  missing_auth_mode_defaults_to_sp missingModeProcessEnv rfl

/-- C10: on a cache miss with strategy `sp`, a secret, and a provider
result carrying a token but no expiry instant, `getAccessToken` caches
the token with expiry exactly one hour from now, and any later call
strictly within the next 55 minutes is a cache hit returning that
token with zero provider calls. -/
theorem getAccessToken_default_expiry_one_hour (env : Env) (now : Int)
    (ar : AuthenticationResult) (st : AuthState)
    (hmode : env.PBI_AUTH_MODE = "sp") (hsec : env.CLIENT_SECRET ≠ "")
    (htok : ar.accessToken ≠ "") (hexp : ar.expiresOn = none)
    (hmiss : cacheMiss st now) :
    getAccessToken env now (ProviderBehavior.resolves (some ar)) st =
      (Except.ok ar.accessToken, ⟨some ⟨ar.accessToken, now + 3600 * 1000⟩⟩, 1) ∧
    ∀ t : Int, t < now + 3300 * 1000 →
      getAccessToken env t (ProviderBehavior.resolves (some ar))
          ⟨some ⟨ar.accessToken, now + 3600 * 1000⟩⟩ =
        (Except.ok ar.accessToken, ⟨some ⟨ar.accessToken, now + 3600 * 1000⟩⟩, 0) := by
  have hre : resultExpiry now ar = now + 3600 * 1000 := by
    unfold resultExpiry
    rw [hexp]
  constructor
  · rw [getAccessToken_miss_aux env now _ st hmiss,
      acquireAndCache_sp_resolves env now ar st hmode hsec htok, hre]
  · intro t htl
    exact getAccessToken_hit_aux env t _ ⟨ar.accessToken, now + 3600 * 1000⟩
      (by show t + 5 * 60 * 1000 < now + 3600 * 1000; omega)

/-- Witness for C10: token `TOK` with no expiry, acquired at time 0,
is cached until 3600000 ms and still served from cache at
t = 3299999 ms. -/
theorem getAccessToken_default_expiry_one_hour_witness :
    getAccessToken (spEnv "app1" "tenant1" "s3cr3t") 0
        (ProviderBehavior.resolves (some ⟨"TOK", none⟩)) ⟨none⟩ =
      (Except.ok "TOK", ⟨some ⟨"TOK", 0 + 3600 * 1000⟩⟩, 1) ∧
    getAccessToken (spEnv "app1" "tenant1" "s3cr3t") 3299999
        (ProviderBehavior.resolves (some ⟨"TOK", none⟩))
        ⟨some ⟨"TOK", 0 + 3600 * 1000⟩⟩ =
      (Except.ok "TOK", ⟨some ⟨"TOK", 0 + 3600 * 1000⟩⟩, 0) :=
  ⟨(getAccessToken_default_expiry_one_hour (spEnv "app1" "tenant1" "s3cr3t") 0
      ⟨"TOK", none⟩ ⟨none⟩ rfl (by decide) (by decide) rfl (by decide)).1,
   (getAccessToken_default_expiry_one_hour (spEnv "app1" "tenant1" "s3cr3t") 0
      ⟨"TOK", none⟩ ⟨none⟩ rfl (by decide) (by decide) rfl (by decide)).2
     3299999 (by decide)⟩

/-- The interceptor chain only rejects with a response whose status is
outside the 2xx range: a 2xx response always resolves. -/
theorem interceptedRequest_httpError_not2xx (transport : Nat → TransportResult) :
    ∀ (remaining attempt status : Nat) (data : ResponseData),
      interceptedRequest transport attempt remaining =
        AxiosOutcome.httpError status data →
      ¬(200 ≤ status ∧ status < 300) := by
  intro remaining
  induction remaining with
  | zero =>
    intro attempt status data h
    unfold interceptedRequest at h
    split at h
    · split at h
      · simp at h
      · split at h
        · rename_i hnot2xx _
          simp only [AxiosOutcome.httpError.injEq] at h
          obtain ⟨hs, -⟩ := h
          subst hs
          exact hnot2xx
        · rename_i hnot2xx _
          simp only [AxiosOutcome.httpError.injEq] at h
          obtain ⟨hs, -⟩ := h
          subst hs
          exact hnot2xx
    · simp at h
  | succ r ih =>
    intro attempt status data h
    unfold interceptedRequest at h
    split at h
    · split at h
      · simp at h
      · split at h
        · exact ih (attempt + 1) status data h
        · rename_i hnot2xx _
          simp only [AxiosOutcome.httpError.injEq] at h
          obtain ⟨hs, -⟩ := h
          subst hs
          exact hnot2xx
    · simp at h

/-- C9: whenever the intercepted axios call (started fresh, with all
retries available) ends with an HTTP error response, its status is
non-2xx and `PowerBIClient.request` raises a `PowerBIError` carrying
that status code and the response body, with the message taken from the
body's `error.message` when a non-empty one is present and from the
axios status message otherwise. -/
theorem request_non2xx_raises_powerbi_error (transport : Nat → TransportResult)
    (status : Nat) (data : ResponseData)
    (h : interceptedRequest transport 0 MAX_RETRIES =
      AxiosOutcome.httpError status data) :
    ¬(200 ≤ status ∧ status < 300) ∧
    PowerBIClient.request transport =
      Except.error (ClientError.powerBIError
        (jsOrDefault data.errorMessage (axiosStatusMessage status)) status data) ∧
    ∀ m, data.errorMessage = some m → m ≠ "" →
      PowerBIClient.request transport =
        Except.error (ClientError.powerBIError m status data) := by
  refine ⟨interceptedRequest_httpError_not2xx transport MAX_RETRIES 0 status data h,
    ?_, ?_⟩
  · unfold PowerBIClient.request
    rw [h]
  · intro m hm hne
    unfold PowerBIClient.request
    rw [h]
    simp [jsOrDefault, hm, hne]

/-- Witness for C9: a transport that always answers 404 with body
error message `NotFound` makes `request` raise
`PowerBIError("NotFound", 404, body)`. -/
theorem request_non2xx_raises_powerbi_error_witness :
    ¬(200 ≤ 404 ∧ 404 < 300) ∧
    PowerBIClient.request (fun _ => TransportResult.response 404 ⟨some "NotFound", "body"⟩) =
      Except.error (ClientError.powerBIError
        (jsOrDefault (some "NotFound") (axiosStatusMessage 404)) 404
        ⟨some "NotFound", "body"⟩) ∧
    ∀ m, (some "NotFound" : Option String) = some m → m ≠ "" →
      PowerBIClient.request (fun _ => TransportResult.response 404 ⟨some "NotFound", "body"⟩) =
        Except.error (ClientError.powerBIError m 404 ⟨some "NotFound", "body"⟩) :=
  request_non2xx_raises_powerbi_error
    (fun _ => TransportResult.response 404 ⟨some "NotFound", "body"⟩) 404
    ⟨some "NotFound", "body"⟩ rfl
